import Mathlib

/-!
Shallow embedding of the API-ECommerce storefront client.

The embedding models the pure view/state logic of the React single-page
application: the catalog's filter/sort/paginate pipeline, the pagination
buttons, the fetch-completion handlers of each component (Catalog Loader,
Detail Loader, Auth Gate, Session Loader), the Cart Summary renderer, and
the top-level view router.  Network effects are modelled by passing the
outcome of the would-be fetch as an explicit argument to the handler that
the component installs for it.  JavaScript numbers holding ids, counts and
pages are modelled as `Nat`; prices and rating averages as `ℚ`.
-/

/-- Rating sub-record of a product: `{ rate, count }`. -/
structure Rating where
  rate : ℚ
  count : Nat
deriving DecidableEq, Repr

/-- The `Product` type used by both catalog and detail pages. -/
structure Product where
  id : Nat
  title : String
  price : ℚ
  description : String
  category : String
  image : String
  rating : Rating
deriving DecidableEq, Repr

/-- Structured name of a user: `{ firstname, lastname }`. -/
structure UserName where
  firstname : String
  lastname : String
deriving DecidableEq, Repr

/-- The `User` type fetched once per session. -/
structure User where
  id : Nat
  name : UserName
  username : String
deriving DecidableEq, Repr

/-- A cart line item: product identifier plus quantity. -/
structure CartProduct where
  productId : Nat
  quantity : Nat
deriving DecidableEq, Repr

/-- The `Cart` type: id, owning user id, list of line items. -/
structure Cart where
  id : Nat
  userId : Nat
  products : List CartProduct
deriving DecidableEq, Repr

/-- Does the second list start with the first one?  Helper for the
substring test below. -/
def startsWithChars : List Char → List Char → Bool
  | [], _ => true
  | _ :: _, [] => false
  | c :: cs, d :: ds => c == d && startsWithChars cs ds

/-- Does `needle` occur contiguously inside the second list?  An empty
needle occurs in every list, as with JavaScript `String.includes`. -/
def occursInChars (needle : List Char) : List Char → Bool
  | [] => needle.isEmpty
  | c :: rest => startsWithChars needle (c :: rest) || occursInChars needle rest

/-- Embedding of `s.includes(pattern)` on strings. -/
def strIncludes (s pattern : String) : Bool :=
  occursInChars pattern.data s.data

/-- ASCII lowering of one character, as in `toLowerCase` on the Basic
Latin range: code points 65 through 90 are shifted by 32. -/
def charToLower (c : Char) : Char :=
  if 65 ≤ c.toNat ∧ c.toNat ≤ 90 then Char.ofNat (c.toNat + 32) else c

/-- Embedding of `s.toLowerCase()`: lower every character. -/
def strToLower (s : String) : String :=
  String.mk (s.data.map charToLower)

/-- The catalog's sort configuration state:
`useState({ key: 'title', order: 'asc' })`. -/
structure SortConfig where
  key : String
  order : String
deriving DecidableEq, Repr

/-- Lexicographic order on character lists; stands in for the sign of
`localeCompare` on the title branch of the comparator. -/
def charListLE : List Char → List Char → Bool
  | [], _ => true
  | _ :: _, [] => false
  | c :: cs, d :: ds => if c == d then charListLE cs ds else decide (c < d)

/-- The sort comparator of `filteredAndSortedProducts`, rendered as the
predicate "comparator(a, b) ≤ 0": by `price` or `rating.rate` the
comparator is the numeric difference in the configured direction, and by
default it compares titles (`localeCompare`, modelled as lexicographic
order on the characters). -/
def productLE (sortConfig : SortConfig) (a b : Product) : Bool :=
  if sortConfig.key == "price" then
    if sortConfig.order == "asc" then decide (a.price ≤ b.price)
    else decide (b.price ≤ a.price)
  else if sortConfig.key == "rating" then
    if sortConfig.order == "asc" then decide (a.rating.rate ≤ b.rating.rate)
    else decide (b.rating.rate ≤ a.rating.rate)
  else
    if sortConfig.order == "asc" then charListLE a.title.data b.title.data
    else charListLE b.title.data a.title.data

/-- The filter step of `filteredAndSortedProducts`:
`products.filter(p => p.title.toLowerCase().includes(searchQuery.toLowerCase()))`. -/
def filterProducts (products : List Product) (searchQuery : String) : List Product :=
  products.filter fun product =>
    strIncludes (strToLower product.title) (strToLower searchQuery)

/-- The sort step: `Array.prototype.sort` is a stable sort consistent with
the comparator, modelled as stable insertion sort by "comparator ≤ 0". -/
def sortProducts (sortConfig : SortConfig) (l : List Product) : List Product :=
  List.insertionSort (fun a b => productLE sortConfig a b = true) l

/-- `filteredAndSortedProducts`: filter by the query, then sort by the
active configuration. -/
def filteredAndSortedProducts (products : List Product) (searchQuery : String)
    (sortConfig : SortConfig) : List Product :=
  sortProducts sortConfig (filterProducts products searchQuery)

/-- `const itemsPerPage = 8`. -/
def itemsPerPage : Nat := 8

/-- `Math.ceil(count / itemsPerPage)` on a natural count: ceiling division. -/
def totalPages (count : Nat) : Nat :=
  (count + itemsPerPage - 1) / itemsPerPage

/-- `filteredAndSortedProducts.slice((currentPage - 1) * itemsPerPage,
currentPage * itemsPerPage)`. -/
def paginatedProducts (l : List Product) (currentPage : Nat) : List Product :=
  (l.drop ((currentPage - 1) * itemsPerPage)).take itemsPerPage

/-- The default sort configuration: title ascending. -/
def defaultSortConfig : SortConfig := ⟨"title", "asc"⟩

/-- The "Anterior" button is disabled exactly on page 1
(`disabled={currentPage === 1}`). -/
def prevDisabled (currentPage : Nat) : Bool :=
  currentPage == 1

/-- The "Próxima" button is disabled exactly when the current page equals
the total page count (`disabled={currentPage === totalPages}`). -/
def nextDisabled (currentPage tot : Nat) : Bool :=
  currentPage == tot

/-- A click on one of the two pagination buttons. -/
inductive NavEvent where
  | anterior
  | proxima
deriving DecidableEq, Repr

/-- Effect of one button click on the current page.  A disabled button
cannot fire its handler; an enabled "Anterior" sets
`Math.max(p - 1, 1)` and an enabled "Próxima" sets
`Math.min(p + 1, totalPages)`. -/
def navStep (tot currentPage : Nat) : NavEvent → Nat
  | .anterior =>
      if prevDisabled currentPage then currentPage else max (currentPage - 1) 1
  | .proxima =>
      if nextDisabled currentPage tot then currentPage else min (currentPage + 1) tot

/-- Run a sequence of pagination-button clicks starting from the initial
page `useState(1)`. -/
def navRun (tot : Nat) (events : List NavEvent) : Nat :=
  events.foldl (navStep tot) 1

/-- A concrete product used to instantiate universally quantified
statements. -/
def sampleProduct (i : Nat) : Product :=
  ⟨i, String.mk (List.replicate (i + 1) 'a'), (i : ℚ), "", "", "", ⟨1, 1⟩⟩

/-- A concrete catalog of ten distinct products. -/
def sampleList10 : List Product :=
  (List.range 10).map sampleProduct

/-- C1: the Catalog View's filter step retains exactly the items of the
loaded list whose title contains the query as a case-insensitive
substring: membership in the filtered list is equivalent to membership in
the loaded list together with the case-insensitive containment test on the
title. -/
theorem catalog_filter_exact (l : List Product) (q : String) (x : Product) :
    x ∈ filterProducts l q ↔
      x ∈ l ∧ strIncludes (strToLower x.title) (strToLower q) = true := by
  simp [filterProducts, List.mem_filter]

/-- C2: with page size 8 and N filtered-and-sorted items the total page
count is the ceiling of N/8, page p shows exactly the items at positions
(p-1)*8+1 through min(p*8, N) of the list (expressed as a take/drop window
and by pointwise lookup), and in the ten-item scenario page 1 shows items
1 through 8 while one "Próxima" click advances to page 2, which shows
items 9 and 10. -/
theorem catalog_pagination_spec (l : List Product) (p : Nat) (hp : 1 ≤ p)
    (m : List Product) (hm : m.length = 10) :
    totalPages l.length = l.length ⌈/⌉ itemsPerPage
    ∧ paginatedProducts l p = (l.take (p * itemsPerPage)).drop ((p - 1) * itemsPerPage)
    ∧ (∀ i : Nat, i < itemsPerPage →
        (paginatedProducts l p)[i]? = l[(p - 1) * itemsPerPage + i]?)
    ∧ totalPages m.length = 2
    ∧ paginatedProducts m 1 = m.take 8
    ∧ navStep (totalPages m.length) 1 NavEvent.proxima = 2
    ∧ paginatedProducts m 2 = m.drop 8 := by
  refine ⟨?_, ?_, ?_, ?_, ?_, ?_, ?_⟩
  · simp [totalPages, Nat.ceilDiv_eq_add_pred_div]
  · rw [paginatedProducts, List.take_drop]
    have h8 : (p - 1) * itemsPerPage + itemsPerPage = p * itemsPerPage := by
      unfold itemsPerPage
      omega
    rw [h8]
  · intro i hi
    simp only [paginatedProducts, List.getElem?_take, List.getElem?_drop, hi, if_pos]
  · rw [hm]
    decide
  · simp [paginatedProducts, itemsPerPage]
  · rw [hm]
    decide
  · rw [paginatedProducts]
    apply List.take_of_length_le
    simp [itemsPerPage, hm]

/-- Witness for C2: the pagination theorem applied to the concrete
ten-product catalog, at page 1, extracting the page-2 contents. -/
theorem catalog_pagination_spec_witness :
    paginatedProducts sampleList10 2 = sampleList10.drop 8 :=
  (catalog_pagination_spec sampleList10 1 (by decide) sampleList10 (by decide)).2.2.2.2.2.2

/-- C4 fails as stated: with zero filtered items the total page count is
0, "Próxima" is not disabled on page 1 (1 ≠ 0), and a single click sets
the page to min(2, 0) = 0, leaving the claimed range at its lower bound. -/
theorem pagination_escapes_range_on_empty :
    navRun (totalPages (filteredAndSortedProducts [] "" defaultSortConfig).length)
      [NavEvent.proxima] = 0
    ∧ ¬ 1 ≤ navRun (totalPages (filteredAndSortedProducts [] "" defaultSortConfig).length)
      [NavEvent.proxima] := by
  decide

/-- One enabled-button click keeps the page between 1 and the total page
count, provided that count is at least 1. -/
theorem navStep_mem_range (tot p : Nat) (htot : 1 ≤ tot) (h1 : 1 ≤ p) (h2 : p ≤ tot)
    (e : NavEvent) : 1 ≤ navStep tot p e ∧ navStep tot p e ≤ tot := by
  cases e <;> simp only [navStep, prevDisabled, nextDisabled] <;> split <;>
    rename_i h <;> simp only [beq_iff_eq] at h <;> omega

/-- Folding any click sequence from a page within range stays within
range, provided the total page count is at least 1. -/
theorem navRun_stays_in_range_aux (tot : Nat) (htot : 1 ≤ tot) (events : List NavEvent)
    (p : Nat) (h1 : 1 ≤ p) (h2 : p ≤ tot) :
    1 ≤ events.foldl (navStep tot) p ∧ events.foldl (navStep tot) p ≤ tot := by
  induction events generalizing p with
  | nil => exact ⟨h1, h2⟩
  | cons e es ih =>
      simp only [List.foldl_cons]
      have h := navStep_mem_range tot p htot h1 h2 e
      exact ih (navStep tot p e) h.1 h.2

/-- C4 amended: for every sequence of "Anterior"/"Próxima" clicks starting
from page 1, whenever at least one item passes the filter the current page
stays between 1 and the total page count; with zero filtered items the
claim fails, since "Próxima" is enabled on page 1 and a click moves the
page to 0. -/
theorem pagination_page_in_range (l : List Product) (q : String) (cfg : SortConfig)
    (h : (filteredAndSortedProducts l q cfg).length ≠ 0) (events : List NavEvent) :
    1 ≤ navRun (totalPages (filteredAndSortedProducts l q cfg).length) events
    ∧ navRun (totalPages (filteredAndSortedProducts l q cfg).length) events
        ≤ totalPages (filteredAndSortedProducts l q cfg).length := by
  have htot : 1 ≤ totalPages (filteredAndSortedProducts l q cfg).length := by
    unfold totalPages itemsPerPage
    omega
  exact navRun_stays_in_range_aux _ htot events 1 le_rfl htot

/-- Witness for the amended C4: the concrete ten-product catalog with the
empty query and default sort, after one "Próxima" click. -/
theorem pagination_page_in_range_witness :
    1 ≤ navRun (totalPages (filteredAndSortedProducts sampleList10 "" defaultSortConfig).length)
      [NavEvent.proxima]
    ∧ navRun (totalPages (filteredAndSortedProducts sampleList10 "" defaultSortConfig).length)
      [NavEvent.proxima]
        ≤ totalPages (filteredAndSortedProducts sampleList10 "" defaultSortConfig).length :=
  pagination_page_in_range sampleList10 "" defaultSortConfig (by decide) [NavEvent.proxima]

/-- Outcome of one `fetch` call as seen by the handler around it: a parsed
payload on a 2xx response, a non-2xx HTTP status, a transport error
carrying the rejection's `Error` message, or a thrown value that is not an
`Error` object. -/
inductive FetchOutcome (α : Type) where
  | ok (data : α)
  | httpError (status : Nat)
  | transportError (message : String)
  | unknownFailure
deriving DecidableEq, Repr

/-- Is this outcome a network or HTTP failure? -/
def FetchOutcome.failed {α : Type} : FetchOutcome α → Bool
  | .ok _ => false
  | _ => true

/-- Message of the `Error` thrown on a non-2xx response:
`HTTP error! status: S`. -/
def httpErrorMessage (status : Nat) : String :=
  "HTTP error! status: " ++ toString status

/-- Fallback message when the caught value is not an `Error`:
`Ocorreu um erro desconhecido`. -/
def unknownErrorMessage : String := "Ocorreu um erro desconhecido"

/-- Component-local state of the Catalog Loader:
`products`, `loading`, `error`. -/
structure CatalogState where
  products : List Product
  loading : Bool
  error : Option String
deriving DecidableEq, Repr

/-- Initial catalog state: `useState([])`, `useState(true)`,
`useState(null)`. -/
def catalogInit : CatalogState :=
  ⟨[], true, none⟩

/-- The Catalog Loader's `fetchProducts` handler: on success store the
payload, on a non-2xx status throw and catch the HTTP error message, on a
rejection catch the `Error` message or the unknown-error fallback; the
`finally` clause always clears `loading`. -/
def catalogFetchEffect (s : CatalogState) (r : FetchOutcome (List Product)) : CatalogState :=
  match r with
  | .ok data => { s with products := data, loading := false }
  | .httpError status => { s with error := some (httpErrorMessage status), loading := false }
  | .transportError m => { s with error := some m, loading := false }
  | .unknownFailure => { s with error := some unknownErrorMessage, loading := false }

/-- What the catalog page renders from its state: the loading message, the
error message, or the grid of the current page. -/
inductive CatalogView where
  | loadingMsg
  | errorMsg (text : String)
  | grid (items : List Product)
deriving DecidableEq, Repr

/-- Render of `ProductCatalog`: loading and error short-circuit, otherwise
the filtered, sorted and paginated grid is shown. -/
def catalogRender (s : CatalogState) (searchQuery : String) (sortConfig : SortConfig)
    (currentPage : Nat) : CatalogView :=
  if s.loading then .loadingMsg
  else
    match s.error with
    | some e => .errorMsg ("Erro ao carregar produtos: " ++ e)
    | none =>
        .grid (paginatedProducts
          (filteredAndSortedProducts s.products searchQuery sortConfig) currentPage)

/-- Component-local state of the Detail Loader:
`product`, `loading`, `error`. -/
structure DetailState where
  product : Option Product
  loading : Bool
  error : Option String
deriving DecidableEq, Repr

/-- Initial detail state: `useState(null)`, `useState(true)`,
`useState(null)`. -/
def detailInit : DetailState :=
  ⟨none, true, none⟩

/-- Body of the Detail Loader's `fetchProduct` handler, reached only when
the effect's guard lets the fetch go out. -/
def detailHandleResponse (s : DetailState) (r : FetchOutcome Product) : DetailState :=
  match r with
  | .ok data => { s with product := some data, loading := false }
  | .httpError status => { s with error := some (httpErrorMessage status), loading := false }
  | .transportError m => { s with error := some m, loading := false }
  | .unknownFailure => { s with error := some unknownErrorMessage, loading := false }

/-- The Detail Loader's effect: `if (!productId) return;` — a falsy
(zero) product id returns before any request, leaving the state untouched;
otherwise the fetch is issued and its outcome handled.  The boolean
records whether a network request was issued. -/
def detailEffect (productId : Nat) (s : DetailState) (r : FetchOutcome Product) :
    DetailState × Bool :=
  if productId == 0 then (s, false)
  else (detailHandleResponse s r, true)

/-- What the detail page renders: loading, error, not-found, or the
product. -/
inductive DetailView where
  | loadingMsg
  | errorMsg (text : String)
  | notFound
  | productView (p : Product)
deriving DecidableEq, Repr

/-- Render of `ProductDetail`: loading, then error, then the not-found
message when no product is present, then the product itself. -/
def detailRender (s : DetailState) : DetailView :=
  if s.loading then .loadingMsg
  else
    match s.error with
    | some e => .errorMsg ("Erro ao carregar produto: " ++ e)
    | none =>
        match s.product with
        | none => .notFound
        | some p => .productView p

/-- Body of the login endpoint's 2xx response: `{ token }`. -/
structure LoginResponse where
  token : String
deriving DecidableEq, Repr

/-- Outcome of one login submission as observed by the page: either the
token is yielded to `onLoginSuccess`, or an error message is displayed. -/
inductive LoginOutcome where
  | success (token : String)
  | failure (message : String)
deriving DecidableEq, Repr

/-- The fixed message thrown on a non-2xx login response:
`Credenciais inválidas. Por favor, tente novamente.`. -/
def invalidCredentialsMessage : String :=
  "Credenciais inválidas. Por favor, tente novamente."

/-- Fallback message when the caught login failure is not an `Error`:
`Ocorreu um erro ao tentar fazer login.`. -/
def loginFallbackMessage : String :=
  "Ocorreu um erro ao tentar fazer login."

/-- The Auth Gate's `handleSubmit` handler: a non-2xx status throws the
fixed invalid-credentials `Error`, which the catch displays; a rejection
displays the `Error` message or the login fallback; a 2xx response yields
`data.token` to the caller and nothing else. -/
def handleSubmit (r : FetchOutcome LoginResponse) : LoginOutcome :=
  match r with
  | .ok data => .success data.token
  | .httpError _ => .failure invalidCredentialsMessage
  | .transportError m => .failure m
  | .unknownFailure => .failure loginFallbackMessage

/-- Joint payload of the Session Loader's three parallel reads: the user,
the list of carts of that user, and the full product list. -/
structure SessionData where
  user : User
  carts : List Cart
  products : List Product
deriving DecidableEq, Repr

/-- Top-level state of `App`: token, user, cart, selected product id, and
the loaded product list. -/
structure AppState where
  token : Option String
  user : Option User
  cart : Option Cart
  selectedProductId : Option Nat
  allProducts : List Product
deriving DecidableEq, Repr

/-- Initial `App` state: every `useState` starts at `null` or `[]`. -/
def appInit : AppState :=
  ⟨none, none, none, none, []⟩

/-- The Session Loader's `fetchUserData` handler.  On success it stores
the user, the first cart of the returned list (`cartData[0]`, which is
absent when the list is empty), and the products.  The source wraps the
awaits in no try/catch and checks no `response.ok`: a failing fetch
rejects unhandled, so no state is updated and no error is recorded — the
`App` state has no error field at all. -/
def fetchUserData (s : AppState) (r : FetchOutcome SessionData) : AppState :=
  match r with
  | .ok d => { s with user := some d.user, cart := d.carts.head?, allProducts := d.products }
  | _ => s

/-- What the Cart Summary renders: either the fixed empty-cart indicator
or the line-item labels. -/
inductive CartView where
  | message (text : String)
  | items (entries : List String)
deriving DecidableEq, Repr

/-- `getProductTitle`: resolve a line item's product id against the loaded
product list, falling back to `Produto {id}` when no product matches. -/
def getProductTitle (products : List Product) (productId : Nat) : String :=
  match products.find? (fun p => p.id == productId) with
  | some product => product.title
  | none => "Produto " ++ toString productId

/-- Render of `ShoppingCart`: a missing cart or one without line items
shows the empty-cart indicator; otherwise each line item shows its
resolved title and quantity. -/
def shoppingCart (cart : Option Cart) (products : List Product) : CartView :=
  match cart with
  | none => .message "🛒 Carrinho vazio"
  | some c =>
      if c.products.length == 0 then .message "🛒 Carrinho vazio"
      else .items (c.products.map fun item =>
        getProductTitle products item.productId ++ " (x" ++ toString item.quantity ++ ")")

/-- Events the running application reacts to: a successful login, a
product selection (catalog card or cart line item), the detail page's back
action, a click on the header title, and completion of the session
fetch. -/
inductive AppEvent where
  | loginSuccess (token : String)
  | selectProduct (id : Nat)
  | backToCatalog
  | headerClick
  | sessionFetchComplete (r : FetchOutcome SessionData)

/-- One step of the top-level state machine: `onLoginSuccess` is the only
writer of `token` and always stores a value; selection writes the product
id; back and header clicks clear it; session-fetch completion runs
`fetchUserData`. -/
def appStep (s : AppState) : AppEvent → AppState
  | .loginSuccess t => { s with token := some t }
  | .selectProduct id => { s with selectedProductId := some id }
  | .backToCatalog => { s with selectedProductId := none }
  | .headerClick => { s with selectedProductId := none }
  | .sessionFetchComplete r => fetchUserData s r

/-- Run a sequence of application events from a state. -/
def appRun (s : AppState) (events : List AppEvent) : AppState :=
  events.foldl appStep s

/-- The top-level view switch: no token renders the login page, otherwise
the main layout with either the catalog or the detail view. -/
inductive AppView where
  | login
  | mainCatalog
  | mainDetail (id : Nat)
deriving DecidableEq, Repr

/-- Render of `App`: `if (!token) return <LoginPage/>`, otherwise the
header plus catalog or detail depending on `selectedProductId`. -/
def appRender (s : AppState) : AppView :=
  match s.token with
  | none => .login
  | some _ =>
      match s.selectedProductId with
      | none => .mainCatalog
      | some id => .mainDetail id

/-- A concrete post-login application state. -/
def loggedInState : AppState :=
  ⟨some "token-exemplo", none, none, none, []⟩

/-- C3 fails for the Session Loader: `fetchUserData` wraps its fetches in
no try/catch and checks no status, so a non-2xx response or a transport
error leaves the state exactly as it was, and the `App` state has no
error field that could carry a displayable message. -/
theorem session_fetch_failure_unhandled :
    fetchUserData loggedInState (FetchOutcome.httpError 500) = loggedInState
    ∧ fetchUserData loggedInState (FetchOutcome.transportError "Failed to fetch")
        = loggedInState
    ∧ (FetchOutcome.httpError 500 : FetchOutcome SessionData).failed = true :=
  ⟨rfl, rfl, rfl⟩

/-- C3 amended: the Catalog Loader, Detail Loader and Auth Gate catch
every fetch failure at the point of fetch and convert it into a
displayable message held in component-local state; the Session Loader does
not — its failures leave the application state unchanged, with no message
recorded anywhere. -/
theorem fetch_failures_displayed
    (r1 : FetchOutcome (List Product)) (h1 : r1.failed = true)
    (r2 : FetchOutcome Product) (h2 : r2.failed = true)
    (r3 : FetchOutcome LoginResponse) (h3 : r3.failed = true)
    (r4 : FetchOutcome SessionData) (h4 : r4.failed = true)
    (q : String) (cfg : SortConfig) (page : Nat) (s : AppState) :
    (∃ m, (catalogFetchEffect catalogInit r1).error = some m
      ∧ catalogRender (catalogFetchEffect catalogInit r1) q cfg page
          = CatalogView.errorMsg ("Erro ao carregar produtos: " ++ m))
    ∧ (∃ m, (detailHandleResponse detailInit r2).error = some m
      ∧ detailRender (detailHandleResponse detailInit r2)
          = DetailView.errorMsg ("Erro ao carregar produto: " ++ m))
    ∧ (∃ m, handleSubmit r3 = LoginOutcome.failure m)
    ∧ fetchUserData s r4 = s := by
  refine ⟨?_, ?_, ?_, ?_⟩
  · cases r1 with
    | ok d => simp [FetchOutcome.failed] at h1
    | httpError status => exact ⟨httpErrorMessage status, rfl, rfl⟩
    | transportError m => exact ⟨m, rfl, rfl⟩
    | unknownFailure => exact ⟨unknownErrorMessage, rfl, rfl⟩
  · cases r2 with
    | ok d => simp [FetchOutcome.failed] at h2
    | httpError status => exact ⟨httpErrorMessage status, rfl, rfl⟩
    | transportError m => exact ⟨m, rfl, rfl⟩
    | unknownFailure => exact ⟨unknownErrorMessage, rfl, rfl⟩
  · cases r3 with
    | ok d => simp [FetchOutcome.failed] at h3
    | httpError status => exact ⟨invalidCredentialsMessage, rfl⟩
    | transportError m => exact ⟨m, rfl⟩
    | unknownFailure => exact ⟨loginFallbackMessage, rfl⟩
  · cases r4 with
    | ok d => simp [FetchOutcome.failed] at h4
    | httpError status => rfl
    | transportError m => rfl
    | unknownFailure => rfl

/-- Witness for the amended C3: concrete failing outcomes for each of the
four components. -/
theorem fetch_failures_displayed_witness :
    (∃ m, (catalogFetchEffect catalogInit (FetchOutcome.httpError 404)).error = some m
      ∧ catalogRender (catalogFetchEffect catalogInit (FetchOutcome.httpError 404))
          "" defaultSortConfig 1
          = CatalogView.errorMsg ("Erro ao carregar produtos: " ++ m))
    ∧ (∃ m, (detailHandleResponse detailInit (FetchOutcome.httpError 500)).error = some m
      ∧ detailRender (detailHandleResponse detailInit (FetchOutcome.httpError 500))
          = DetailView.errorMsg ("Erro ao carregar produto: " ++ m))
    ∧ (∃ m, handleSubmit (FetchOutcome.httpError 401) = LoginOutcome.failure m)
    ∧ fetchUserData loggedInState (FetchOutcome.transportError "Failed to fetch")
        = loggedInState :=
  fetch_failures_displayed (FetchOutcome.httpError 404) rfl (FetchOutcome.httpError 500) rfl
    (FetchOutcome.httpError 401) rfl (FetchOutcome.transportError "Failed to fetch") rfl
    "" defaultSortConfig 1 loggedInState

/-- C5: a non-success login response displays the single fixed
invalid-credentials message (the server's own error text is never read),
and a successful response yields exactly the token string of the body to
the caller. -/
theorem login_outcome_spec (status : Nat) (body : LoginResponse) :
    handleSubmit (FetchOutcome.httpError status) = LoginOutcome.failure invalidCredentialsMessage
    ∧ handleSubmit (FetchOutcome.ok body) = LoginOutcome.success body.token :=
  ⟨rfl, rfl⟩

/-- C7: a cart line item whose product id matches no loaded product is
labelled with the fallback `Produto {id}`; when a product with the id
exists the label is the title of a loaded product carrying that id; and
the Cart Summary renders exactly these labels for its line items. -/
theorem cart_label_lookup (products : List Product) (productId : Nat) :
    ((∀ p ∈ products, p.id ≠ productId) →
      getProductTitle products productId = "Produto " ++ toString productId)
    ∧ (∀ p ∈ products, p.id = productId →
        ∃ q ∈ products, q.id = productId ∧ getProductTitle products productId = q.title)
    ∧ (∀ c : Cart, c.products ≠ [] →
        shoppingCart (some c) products = CartView.items (c.products.map fun item =>
          getProductTitle products item.productId ++ " (x" ++ toString item.quantity ++ ")")) := by
  refine ⟨?_, ?_, ?_⟩
  · intro h
    unfold getProductTitle
    rw [List.find?_eq_none.mpr]
    intro x hx
    simpa using h x hx
  · intro p hp hid
    have hsome : (products.find? (fun x => x.id == productId)).isSome := by
      rw [List.find?_isSome]
      exact ⟨p, hp, by simpa using hid⟩
    obtain ⟨w, hw⟩ := Option.isSome_iff_exists.mp hsome
    refine ⟨w, List.mem_of_find?_eq_some hw, ?_, ?_⟩
    · simpa using List.find?_some hw
    · unfold getProductTitle
      rw [hw]
  · intro c hc
    have hlen : (c.products.length == 0) = false := by
      simpa [List.length_eq_zero] using hc
    simp [shoppingCart, hlen]

/-- Witness for C7: the fallback branch at a concrete absent id. -/
theorem cart_label_lookup_witness :
    getProductTitle sampleList10 99 = "Produto " ++ toString 99 :=
  (cart_label_lookup sampleList10 99).1 (by decide)

/-- C8: once the token is present it stays present under every sequence of
application events, and the rendered view is never the login page again:
no event writes `none` into the token. -/
theorem authenticated_never_logs_out (s : AppState) (h : s.token.isSome = true)
    (events : List AppEvent) :
    (appRun s events).token.isSome = true
    ∧ appRender (appRun s events) ≠ AppView.login := by
  have step : ∀ (st : AppState) (e : AppEvent), st.token.isSome = true →
      (appStep st e).token.isSome = true := by
    intro st e h2
    cases e with
    | loginSuccess t => simp [appStep]
    | selectProduct i => exact h2
    | backToCatalog => exact h2
    | headerClick => exact h2
    | sessionFetchComplete r => cases r <;> exact h2
  have run : ∀ (l : List AppEvent) (st : AppState), st.token.isSome = true →
      (appRun st l).token.isSome = true := by
    intro l
    induction l with
    | nil => intro st h2; exact h2
    | cons e es ih =>
        intro st h2
        simpa [appRun, List.foldl_cons] using ih (appStep st e) (step st e h2)
  refine ⟨run events s h, ?_⟩
  have htok := run events s h
  unfold appRender
  obtain ⟨t, ht⟩ := Option.isSome_iff_exists.mp htok
  rw [ht]
  cases (appRun s events).selectedProductId <;> simp

/-- Witness for C8: the concrete logged-in state run through a selection
followed by a back click. -/
theorem authenticated_never_logs_out_witness :
    (appRun loggedInState [AppEvent.selectProduct 3, AppEvent.backToCatalog]).token.isSome = true
    ∧ appRender (appRun loggedInState [AppEvent.selectProduct 3, AppEvent.backToCatalog])
        ≠ AppView.login :=
  authenticated_never_logs_out loggedInState rfl [AppEvent.selectProduct 3, AppEvent.backToCatalog]

/-- C9: when the carts endpoint returns an empty list, `cartData[0]` is
absent, the stored cart is `none`, and the Cart Summary renders the fixed
empty-cart indicator; every function involved is total, so nothing
crashes. -/
theorem empty_carts_fail_safe (s : AppState) (u : User) (ps : List Product) :
    (fetchUserData s (FetchOutcome.ok ⟨u, [], ps⟩)).cart = none
    ∧ shoppingCart (fetchUserData s (FetchOutcome.ok ⟨u, [], ps⟩)).cart ps
        = CartView.message "🛒 Carrinho vazio" :=
  ⟨rfl, rfl⟩

/-- C10: with product id 0 the Detail Loader's effect hits the falsy guard
`if (!productId) return;`, issues no request whatever the network would
have answered, leaves the state at its initial value
(product null, loading true, error null), and the component keeps
rendering the loading message. -/
theorem detail_zero_id_stuck_loading (r : FetchOutcome Product) :
    detailEffect 0 detailInit r = (detailInit, false)
    ∧ detailInit = ⟨none, true, none⟩
    ∧ detailRender detailInit = DetailView.loadingMsg :=
  ⟨rfl, rfl, rfl⟩

/-- The price-ascending sort configuration (`price-asc` option). -/
def priceAscConfig : SortConfig := ⟨"price", "asc"⟩

/-- The price-descending sort configuration (`price-desc` option). -/
def priceDescConfig : SortConfig := ⟨"price", "desc"⟩

/-- Under the price-ascending configuration the comparator predicate is
exactly the price order. -/
theorem productLE_priceAsc (a b : Product) :
    (productLE priceAscConfig a b = true) ↔ a.price ≤ b.price := by
  simp [productLE, priceAscConfig]

/-- Under the price-descending configuration the comparator predicate is
exactly the reversed price order. -/
theorem productLE_priceDesc (a b : Product) :
    (productLE priceDescConfig a b = true) ↔ b.price ≤ a.price := by
  simp [productLE, priceDescConfig]

/-- C6: on any product list with pairwise-distinct prices and any query,
sorting the filtered list by price ascending and sorting it by price
descending produce exact reverses of each other. -/
theorem price_sort_asc_desc_reverse (l : List Product) (q : String)
    (hd : l.Pairwise (fun a b => a.price ≠ b.price)) :
    sortProducts priceAscConfig (filterProducts l q)
      = (sortProducts priceDescConfig (filterProducts l q)).reverse := by
  have hdf : (filterProducts l q).Pairwise (fun a b => a.price ≠ b.price) :=
    List.Pairwise.sublist (List.filter_sublist l) hd
  have hsymm : ∀ {x y : Product}, x.price ≠ y.price → y.price ≠ x.price :=
    fun h => h.symm
  haveI ta : IsTotal Product (fun a b => productLE priceAscConfig a b = true) :=
    ⟨fun a b => by
      rcases le_total a.price b.price with h | h
      · exact Or.inl ((productLE_priceAsc a b).mpr h)
      · exact Or.inr ((productLE_priceAsc b a).mpr h)⟩
  haveI tra : IsTrans Product (fun a b => productLE priceAscConfig a b = true) :=
    ⟨fun a b c hab hbc => (productLE_priceAsc a c).mpr
      (le_trans ((productLE_priceAsc a b).mp hab) ((productLE_priceAsc b c).mp hbc))⟩
  haveI td : IsTotal Product (fun a b => productLE priceDescConfig a b = true) :=
    ⟨fun a b => by
      rcases le_total b.price a.price with h | h
      · exact Or.inl ((productLE_priceDesc a b).mpr h)
      · exact Or.inr ((productLE_priceDesc b a).mpr h)⟩
  haveI trd : IsTrans Product (fun a b => productLE priceDescConfig a b = true) :=
    ⟨fun a b c hab hbc => (productLE_priceDesc a c).mpr
      (le_trans ((productLE_priceDesc b c).mp hbc) ((productLE_priceDesc a b).mp hab))⟩
  have permA : (sortProducts priceAscConfig (filterProducts l q)).Perm (filterProducts l q) :=
    List.perm_insertionSort _ _
  have permD : (sortProducts priceDescConfig (filterProducts l q)).Perm (filterProducts l q) :=
    List.perm_insertionSort _ _
  have sortedA : (sortProducts priceAscConfig (filterProducts l q)).Pairwise
      (fun a b => a.price ≤ b.price) :=
    (List.sorted_insertionSort _ (filterProducts l q)).imp
      fun h => (productLE_priceAsc _ _).mp h
  have sortedD : (sortProducts priceDescConfig (filterProducts l q)).Pairwise
      (fun a b => b.price ≤ a.price) :=
    (List.sorted_insertionSort _ (filterProducts l q)).imp
      fun h => (productLE_priceDesc _ _).mp h
  have sortedDrev : (sortProducts priceDescConfig (filterProducts l q)).reverse.Pairwise
      (fun a b => a.price ≤ b.price) :=
    List.pairwise_reverse.mpr sortedD
  have permDrev : (sortProducts priceDescConfig (filterProducts l q)).reverse.Perm
      (filterProducts l q) :=
    (List.reverse_perm _).trans permD
  have neA : (sortProducts priceAscConfig (filterProducts l q)).Pairwise
      (fun a b => a.price ≠ b.price) :=
    (permA.pairwise_iff hsymm).mpr hdf
  have neDrev : (sortProducts priceDescConfig (filterProducts l q)).reverse.Pairwise
      (fun a b => a.price ≠ b.price) :=
    (permDrev.pairwise_iff hsymm).mpr hdf
  have strictA : (sortProducts priceAscConfig (filterProducts l q)).Pairwise
      (fun a b => a.price < b.price) :=
    (sortedA.and neA).imp fun h => lt_of_le_of_ne h.1 h.2
  have strictDrev : (sortProducts priceDescConfig (filterProducts l q)).reverse.Pairwise
      (fun a b => a.price < b.price) :=
    (sortedDrev.and neDrev).imp fun h => lt_of_le_of_ne h.1 h.2
  haveI : IsAntisymm Product (fun a b => a.price < b.price) :=
    ⟨fun a b h1 h2 => absurd h2 (not_lt.mpr h1.le)⟩
  exact List.eq_of_perm_of_sorted (permA.trans permDrev.symm) strictA strictDrev

/-- Witness for C6: the ten-product catalog with distinct prices 0 through
9 and the empty query. -/
theorem price_sort_asc_desc_reverse_witness :
    sortProducts priceAscConfig (filterProducts sampleList10 "")
      = (sortProducts priceDescConfig (filterProducts sampleList10 "")).reverse :=
  price_sort_asc_desc_reverse sampleList10 "" (by decide)
